import Mathlib

/-!
Verification of the session lifecycle and traffic-capture manager of
`reverse-api-engineer` (src/reverse_api/browser.py), a shallow embedding of
the `ManualBrowser` class and its collaborators.

Modelling conventions:
- The Playwright driver, the filesystem probe for the Chrome profile
  directory and the outcome of each fallible external call are captured in an
  `Env` oracle of booleans, one per call site that the Python code wraps (or
  fails to wrap) in exception handling.
- Stateful Python attributes become fields of a `ManualBrowser` structure;
  each operation threads the structure explicitly and also emits a trace of
  externally visible events (`Event`), in the order the Python statements
  execute them.
- Exceptions escaping to the caller are `Except.error`; the payload carries
  the state, filesystem and trace at the moment of propagation.
- Timestamps: the `utils` module is not part of the provided sources, so
  `get_timestamp` is modelled from the spec as reading a monotone clock
  (a natural-number counter threaded through the run), and `get_har_dir`
  as the run-scoped directory described in the spec output layout.
-/

namespace ReverseApi

/-- The fixed pool of user-agent strings (browser.py, `USER_AGENTS`). -/
def USER_AGENTS : List String := [
  "Mozilla/5.0 (Macintosh; Intel Mac OS X 10_15_7) AppleWebKit/537.36 (KHTML, like Gecko) Chrome/131.0.0.0 Safari/537.36",
  "Mozilla/5.0 (Macintosh; Intel Mac OS X 10_15_7) AppleWebKit/537.36 (KHTML, like Gecko) Chrome/130.0.0.0 Safari/537.36",
  "Mozilla/5.0 (Windows NT 10.0; Win64; x64) AppleWebKit/537.36 (KHTML, like Gecko) Chrome/131.0.0.0 Safari/537.36",
  "Mozilla/5.0 (Windows NT 10.0; Win64; x64) AppleWebKit/537.36 (KHTML, like Gecko) Chrome/130.0.0.0 Safari/537.36"]

/-- Default Chrome profile path on macOS (browser.py, `CHROME_USER_DATA_DIR`). -/
def CHROME_USER_DATA_DIR : String := "~/Library/Application Support/Google/Chrome"

/-- Oracle for the external world: whether the real Chrome profile directory
exists, and whether each fallible driver call raises when executed. One field
per call site of browser.py. -/
structure Env where
  chromeProfileExists : Bool
  launchPersistentRaises : Bool
  launchRaises : Bool
  persistentHasInitialPage : Bool
  gotoRaises : Bool
  contextCloseRaises : Bool
  browserCloseRaises : Bool
  playwrightStopRaises : Bool
deriving DecidableEq

/-- get_chrome_profile_dir (browser.py 161-165): the profile directory when it
exists, `none` otherwise. -/
def get_chrome_profile_dir (env : Env) : Option String :=
  if env.chromeProfileExists then some CHROME_USER_DATA_DIR else none

/-- Modelled from the spec: `get_har_dir` of the missing `utils` module.
The spec output layout puts per-session artifacts under a run-scoped
directory, honoring the optional output-directory override (default per
config.py comment: the runs directory under the home dot-directory). -/
def get_har_dir (run_id : String) (output_dir : Option String) : String :=
  (output_dir.getD "~/.reverse-api/runs") ++ "/" ++ run_id

/-- Modelled from the spec: `get_timestamp` of the missing `utils` module
reads the current wall-clock time; modelled as a monotone counter, returning
the current reading and the advanced clock. -/
def get_timestamp (clock : Nat) : Nat × Nat := (clock, clock + 1)

/-- JSON-like values appearing in the metadata record. -/
inductive JVal
  | str : String → JVal
  | num : Nat → JVal
  | null : JVal
deriving DecidableEq, BEq

/-- Values passed as keyword arguments to driver calls. -/
inductive PVal
  | str : String → PVal
  | bool : Bool → PVal
  | strList : List String → PVal
  | natMap : List (String × Nat) → PVal
  | strMap : List (String × String) → PVal
deriving DecidableEq, BEq

/-- Externally visible events, in the order the Python statements perform
them. Payloads record the keyword arguments of the driver calls that the
claims inspect. -/
inductive Event
  | installSignalHandlers : Event
  | playwrightStart : Event
  | fallbackNotice : Event
  | mkTempProfile : Event
  | launchPersistent : List (String × PVal) → Event
  | launch : List String → List String → Event
  | newContext : List (String × PVal) → Event
  | applyStealth : Event
  | addInitScript : Event
  | newPage : Event
  | usedExistingPage : Event
  | goto : String → Event
  | waitForClose : Event
  | contextClose : Event
  | browserClose : Event
  | playwrightStop : Event
  | saveMetadata : Event
  | removeTempProfile : Event
deriving DecidableEq, BEq

/-- The session-relevant filesystem: the metadata record at the metadata
path (as its JSON object), and whether the HAR capture archive has been
written at the HAR path. -/
structure FS where
  metadataFile : Option (List (String × JVal))
  harFileSaved : Bool
deriving DecidableEq

/-- The mutable attributes of `ManualBrowser` (browser.py 176-195). The
optional driver handles `_playwright`, `_browser`, `_context` are modelled by
booleans recording whether they are non-None. -/
structure ManualBrowser where
  run_id : String
  prompt : String
  output_dir : Option String
  use_real_chrome : Bool
  har_dir : String
  har_path : String
  metadata_path : String
  playwright : Bool
  browser : Bool
  context : Bool
  start_time : Option Nat
  user_agent : String
  using_persistent : Bool
deriving DecidableEq

/-- The uniform random choice `random.choice(USER_AGENTS)` (browser.py 194),
made a pure function of an explicit random index into the pool. -/
def uaChoice (i : Fin USER_AGENTS.length) : String := USER_AGENTS.get i

/-- ManualBrowser constructor (browser.py 176-195). -/
def ManualBrowser.init (run_id prompt : String) (output_dir : Option String)
    (use_real_chrome : Bool) (i : Fin USER_AGENTS.length) : ManualBrowser :=
  let hd := get_har_dir run_id output_dir
  { run_id := run_id
    prompt := prompt
    output_dir := output_dir
    use_real_chrome := use_real_chrome
    har_dir := hd
    har_path := hd ++ "/recording.har"
    metadata_path := hd ++ "/metadata.json"
    playwright := false
    browser := false
    context := false
    start_time := none
    user_agent := uaChoice i
    using_persistent := false }

/-- The JSON object written by `_save_metadata` (browser.py 197-207), with
exactly the keys of the Python dict literal, in order. -/
def ManualBrowser.save_metadata (b : ManualBrowser) (end_time : Nat) :
    List (String × JVal) :=
  [("run_id", JVal.str b.run_id),
   ("prompt", JVal.str b.prompt),
   ("start_time", (b.start_time.map JVal.num).getD JVal.null),
   ("end_time", JVal.num end_time),
   ("har_file", JVal.str b.har_path)]

/-- Result of a `close` call: updated session state, clock, filesystem, the
events this call emitted, and the returned HAR path. `close` is total
because every teardown step of browser.py 388-424 swallows its exceptions
and the metadata write is local file output. -/
structure CloseOut where
  b : ManualBrowser
  clock : Nat
  fs : FS
  trace : List Event
  ret : String
deriving DecidableEq

/-- ManualBrowser.close (browser.py 388-424): take the end timestamp, close
the context if present (finalizing the HAR on driver success, swallowing
driver errors), close the browser if present and not persistent, stop the
driver connection if present, write the metadata record, return the HAR
path. -/
def ManualBrowser.close (env : Env) (b : ManualBrowser) (clock : Nat)
    (fs : FS) : CloseOut :=
  let tc := get_timestamp clock
  let end_time := tc.1
  let clock := tc.2
  let step1 : FS × List Event × ManualBrowser :=
    if b.context then
      (if env.contextCloseRaises then fs else { fs with harFileSaved := true },
       [Event.contextClose], { b with context := false })
    else (fs, [], b)
  let fs := step1.1
  let tr1 := step1.2.1
  let b := step1.2.2
  let step2 : List Event × ManualBrowser :=
    if b.browser && !b.using_persistent then
      ([Event.browserClose], { b with browser := false })
    else ([], b)
  let tr2 := step2.1
  let b := step2.2
  let step3 : List Event × ManualBrowser :=
    if b.playwright then ([Event.playwrightStop], { b with playwright := false })
    else ([], b)
  let tr3 := step3.1
  let b := step3.2
  let md := b.save_metadata end_time
  { b := b
    clock := clock
    fs := { fs with metadataFile := some md }
    trace := tr1 ++ tr2 ++ tr3 ++ [Event.saveMetadata]
    ret := b.har_path }

/-- Session state, clock, filesystem and trace at the point an exception
propagates to the caller, or at completion of a launch path. -/
structure RunOut where
  b : ManualBrowser
  clock : Nat
  fs : FS
  trace : List Event
deriving DecidableEq

/-- The comprehensive stealth Chrome arguments of the fallback path
(browser.py 284-314). -/
def chrome_args : List String := [
  "--start-maximized",
  "--disable-blink-features=AutomationControlled",
  "--disable-features=IsolateOrigins,site-per-process",
  "--disable-infobars",
  "--disable-dev-shm-usage",
  "--disable-background-networking",
  "--disable-default-apps",
  "--disable-extensions",
  "--disable-sync",
  "--disable-translate",
  "--no-first-run",
  "--no-default-browser-check",
  "--no-service-autorun",
  "--disable-backgrounding-occluded-windows",
  "--disable-renderer-backgrounding",
  "--disable-background-timer-throttling",
  "--disable-ipc-flooding-protection",
  "--disable-hang-monitor",
  "--disable-prompt-on-repost",
  "--disable-client-side-phishing-detection",
  "--disable-webrtc-hw-encoding",
  "--disable-webrtc-hw-decoding",
  "--force-webrtc-ip-handling-policy=disable_non_proxied_udp",
  "--enable-features=NetworkService,NetworkServiceInProcess",
  "--disable-component-update",
  "--disable-domain-reliability",
  "--disable-features=AutofillServerCommunication",
  "--password-store=basic",
  "--use-mock-keychain"]

/-- The default driver arguments suppressed in both launch calls
(browser.py 252 and 319). -/
def ignored_default_args : List String := ["--enable-automation", "--no-sandbox"]

/-- The temporary profile directory produced by tempfile.mkdtemp
(browser.py 232); its randomized suffix is abstracted to a fixed marker. -/
def temp_profile_dir : String := "/tmp/chrome_profile_SESSION"

/-- Keyword arguments of the launch_persistent_context call of the
real-browser path (browser.py 241-253). -/
def launchPersistentKwargs (har_path : String) : List (String × PVal) :=
  [("user_data_dir", PVal.str temp_profile_dir),
   ("channel", PVal.str "chrome"),
   ("headless", PVal.bool false),
   ("record_har_path", PVal.str har_path),
   ("record_har_content", PVal.str "attach"),
   ("no_viewport", PVal.bool true),
   ("args", PVal.strList ["--start-maximized",
      "--disable-blink-features=AutomationControlled"]),
   ("ignore_default_args", PVal.strList ignored_default_args)]

/-- Keyword arguments of the new_context call of the fallback path
(browser.py 323-340). -/
def newContextKwargs (har_path user_agent : String) : List (String × PVal) :=
  [("record_har_path", PVal.str har_path),
   ("record_har_content", PVal.str "attach"),
   ("no_viewport", PVal.bool true),
   ("locale", PVal.str "en-US"),
   ("timezone_id", PVal.str "America/New_York"),
   ("user_agent", PVal.str user_agent),
   ("screen", PVal.natMap [("width", 1920), ("height", 1080)]),
   ("color_scheme", PVal.str "light"),
   ("reduced_motion", PVal.str "no-preference"),
   ("forced_colors", PVal.str "none"),
   ("extra_http_headers", PVal.strMap
     [("Accept-Language", "en-US,en;q=0.9"),
      ("sec-ch-ua", "\"Google Chrome\";v=\"131\", \"Chromium\";v=\"131\", \"Not_A Brand\";v=\"24\""),
      ("sec-ch-ua-mobile", "?0"),
      ("sec-ch-ua-platform", "\"macOS\"")])]

/-- The `_inject_stealth` helper (browser.py 215-217): registering the
stealth init script on a page. Defined in the source but never invoked. -/
def inject_stealth : List Event := [Event.addInitScript]

/-- Prepend events to the trace of a launch-path result, whichever way it
ended. -/
def withTrace (pre : List Event) :
    Except RunOut (RunOut × String) → Except RunOut (RunOut × String)
  | Except.error r => Except.error { r with trace := pre ++ r.trace }
  | Except.ok (r, p) => Except.ok ({ r with trace := pre ++ r.trace }, p)

/-- ManualBrowser._start_with_stealth_chromium (browser.py 281-362): launch
the bundled Chromium with the stealth arguments (an exception here
propagates), create the HAR-recording context, apply the playwright-stealth
evasions, add the custom stealth init script, open the initial page, attempt
navigation to the starting URL if given (an exception here propagates), wait
for all pages to close (exceptions swallowed), then return close(). -/
def ManualBrowser.start_with_stealth_chromium (env : Env) (b : ManualBrowser)
    (clock : Nat) (fs : FS) (start_url : Option String) :
    Except RunOut (RunOut × String) :=
  let tr := [Event.launch chrome_args ignored_default_args]
  if env.launchRaises then
    Except.error { b := b, clock := clock, fs := fs, trace := tr }
  else
    let b := { b with browser := true }
    let tr := tr ++ [Event.newContext (newContextKwargs b.har_path b.user_agent)]
    let b := { b with context := true }
    let tr := tr ++ [Event.applyStealth, Event.addInitScript, Event.newPage]
    let tr := tr ++ (start_url.map Event.goto).toList
    if start_url.isSome && env.gotoRaises then
      Except.error { b := b, clock := clock, fs := fs, trace := tr }
    else
      let tr := tr ++ [Event.waitForClose]
      let c := ManualBrowser.close env b clock fs
      Except.ok ({ b := c.b, clock := c.clock, fs := c.fs,
                   trace := tr ++ c.trace }, c.ret)

/-- ManualBrowser._start_with_real_chrome (browser.py 219-279): when the
Chrome profile directory is absent, print the fallback notice and delegate to
the stealth path; otherwise create a temporary profile directory, launch a
persistent context on the real Chrome channel (an exception propagates after
the finally-block removes the temporary profile), mark the handle persistent,
reuse or open the first page, attempt navigation if a starting URL was given
(an exception propagates after the finally-block cleanup), wait for all pages
to close, return close(), removing the temporary profile on the way out. -/
def ManualBrowser.start_with_real_chrome (env : Env) (b : ManualBrowser)
    (clock : Nat) (fs : FS) (start_url : Option String) :
    Except RunOut (RunOut × String) :=
  match get_chrome_profile_dir env with
  | none =>
    withTrace [Event.fallbackNotice]
      (ManualBrowser.start_with_stealth_chromium env b clock fs start_url)
  | some _ =>
    let tr := [Event.mkTempProfile,
               Event.launchPersistent (launchPersistentKwargs b.har_path)]
    if env.launchPersistentRaises then
      Except.error { b := b, clock := clock, fs := fs,
                     trace := tr ++ [Event.removeTempProfile] }
    else
      let b := { b with context := true, using_persistent := true }
      let tr := tr ++ [if env.persistentHasInitialPage then
                         Event.usedExistingPage else Event.newPage]
      let tr := tr ++ (start_url.map Event.goto).toList
      if start_url.isSome && env.gotoRaises then
        Except.error { b := b, clock := clock, fs := fs,
                       trace := tr ++ [Event.removeTempProfile] }
      else
        let tr := tr ++ [Event.waitForClose]
        let c := ManualBrowser.close env b clock fs
        Except.ok ({ b := c.b, clock := c.clock, fs := c.fs,
                     trace := tr ++ c.trace ++ [Event.removeTempProfile] },
                   c.ret)

/-- ManualBrowser.start (browser.py 364-386): record the start timestamp,
install the signal handlers, start the driver, then dispatch on the
use_real_chrome flag. -/
def ManualBrowser.start (env : Env) (b : ManualBrowser) (clock : Nat)
    (fs : FS) (start_url : Option String) :
    Except RunOut (RunOut × String) :=
  let tc := get_timestamp clock
  let b := { b with start_time := some tc.1 }
  let clock := tc.2
  let b := { b with playwright := true }
  withTrace [Event.installSignalHandlers, Event.playwrightStart]
    (if b.use_real_chrome then
       ManualBrowser.start_with_real_chrome env b clock fs start_url
     else
       ManualBrowser.start_with_stealth_chromium env b clock fs start_url)

/-- A complete session: construct the ManualBrowser, then run start() on a
fresh filesystem (no metadata record, no HAR file). -/
def run (env : Env) (run_id prompt : String) (output_dir : Option String)
    (use_real_chrome : Bool) (i : Fin USER_AGENTS.length)
    (start_url : Option String) (clock : Nat) :
    Except RunOut (RunOut × String) :=
  ManualBrowser.start env
    (ManualBrowser.init run_id prompt output_dir use_real_chrome i)
    clock { metadataFile := none, harFileSaved := false } start_url

/-- The trace of a launch-path result, whichever way it ended. -/
def traceOf : Except RunOut (RunOut × String) → List Event
  | Except.error r => r.trace
  | Except.ok (r, _) => r.trace

/-- The filesystem of a launch-path result, whichever way it ended. -/
def fsOf : Except RunOut (RunOut × String) → FS
  | Except.error r => r.fs
  | Except.ok (r, _) => r.fs

/-- Whether a launch-path result completed without a propagated exception. -/
def isOkB : Except RunOut (RunOut × String) → Bool
  | Except.ok _ => true
  | Except.error _ => false

/-- The three destructive teardown steps of close(). -/
def isTeardown : Event → Bool
  | Event.contextClose => true
  | Event.browserClose => true
  | Event.playwrightStop => true
  | _ => false

/-- Recognizer for the real-browser persistent-context launch call. -/
def isLaunchPersistent : Event → Bool
  | Event.launchPersistent _ => true
  | _ => false

/-- Recognizer for the temporary-profile creation of the real-browser path. -/
def isMkTempProfile : Event → Bool
  | Event.mkTempProfile => true
  | _ => false

/-- Recognizer for the metadata-record write. -/
def isSaveMetadata : Event → Bool
  | Event.saveMetadata => true
  | _ => false

/-- Recognizer for the interactive wait-until-all-pages-closed loop. -/
def isWaitForClose : Event → Bool
  | Event.waitForClose => true
  | _ => false

/-- The session state of a launch-path result, whichever way it ended. -/
def stateOf : Except RunOut (RunOut × String) → ManualBrowser
  | Except.error r => r.b
  | Except.ok (r, _) => r.b

/-- Recognizer for the page-creation event. -/
def isNewPage : Event → Bool
  | Event.newPage => true
  | _ => false

/-- Recognizer for the stealth-init-script registration event. -/
def isAddInit : Event → Bool
  | Event.addInitScript => true
  | _ => false

/-- Recognizer for the playwright-stealth application event. -/
def isApplyStealth : Event → Bool
  | Event.applyStealth => true
  | _ => false

theorem stateOf_withTrace (pre : List Event)
    (r : Except RunOut (RunOut × String)) :
    stateOf (withTrace pre r) = stateOf r := by
  cases r with
  | error r => simp [withTrace, stateOf]
  | ok r => simp [withTrace, stateOf]

theorem traceOf_withTrace (pre : List Event)
    (r : Except RunOut (RunOut × String)) :
    traceOf (withTrace pre r) = pre ++ traceOf r := by
  cases r with
  | error r => simp [withTrace, traceOf]
  | ok r => simp [withTrace, traceOf]

theorem fsOf_withTrace (pre : List Event)
    (r : Except RunOut (RunOut × String)) :
    fsOf (withTrace pre r) = fsOf r := by
  cases r with
  | error r => simp [withTrace, fsOf]
  | ok r => simp [withTrace, fsOf]

theorem isOkB_withTrace (pre : List Event)
    (r : Except RunOut (RunOut × String)) :
    isOkB (withTrace pre r) = isOkB r := by
  cases r with
  | error r => simp [withTrace, isOkB]
  | ok r => simp [withTrace, isOkB]

theorem close_metadataFile (env : Env) (b : ManualBrowser) (clock : Nat)
    (fs : FS) :
    (ManualBrowser.close env b clock fs).fs.metadataFile =
      some (b.save_metadata clock) := by
  cases hc : b.context <;> cases hb : b.browser <;>
    cases hu : b.using_persistent <;> cases hp : b.playwright <;>
      cases he : env.contextCloseRaises <;>
        simp [ManualBrowser.close, ManualBrowser.save_metadata, get_timestamp,
              hc, hb, hu, hp, he]

theorem close_ret (env : Env) (b : ManualBrowser) (clock : Nat) (fs : FS) :
    (ManualBrowser.close env b clock fs).ret = b.har_path := by
  cases hc : b.context <;> cases hb : b.browser <;>
    cases hu : b.using_persistent <;> cases hp : b.playwright <;>
      simp [ManualBrowser.close, get_timestamp, hc, hb, hu, hp]

theorem close_user_agent (env : Env) (b : ManualBrowser) (clock : Nat)
    (fs : FS) :
    (ManualBrowser.close env b clock fs).b.user_agent = b.user_agent := by
  cases hc : b.context <;> cases hb : b.browser <;>
    cases hu : b.using_persistent <;> cases hp : b.playwright <;>
      simp [ManualBrowser.close, get_timestamp, hc, hb, hu, hp]

theorem stateOf_stealth_user_agent (env : Env) (b : ManualBrowser)
    (clock : Nat) (fs : FS) (url : Option String) :
    (stateOf (ManualBrowser.start_with_stealth_chromium env b clock fs
      url)).user_agent = b.user_agent := by
  cases hl : env.launchRaises <;> cases hu : url <;>
    cases hg : env.gotoRaises <;>
      simp [ManualBrowser.start_with_stealth_chromium, stateOf, hl, hu, hg,
            close_user_agent]

theorem stateOf_real_user_agent (env : Env) (b : ManualBrowser)
    (clock : Nat) (fs : FS) (url : Option String) :
    (stateOf (ManualBrowser.start_with_real_chrome env b clock fs
      url)).user_agent = b.user_agent := by
  cases hpe : env.chromeProfileExists <;>
    cases hlp : env.launchPersistentRaises <;> cases hu : url <;>
      cases hg : env.gotoRaises <;>
        simp only [ManualBrowser.start_with_real_chrome,
          get_chrome_profile_dir, hpe, hlp, hu, hg, if_true, if_false,
          Bool.false_eq_true, stateOf_withTrace,
          stateOf_stealth_user_agent] <;>
        simp [stateOf, hg, close_user_agent]

theorem stateOf_start_user_agent (env : Env) (b : ManualBrowser)
    (clock : Nat) (fs : FS) (url : Option String) :
    (stateOf (ManualBrowser.start env b clock fs url)).user_agent =
      b.user_agent := by
  cases hrc : b.use_real_chrome <;>
    simp [ManualBrowser.start, get_timestamp, stateOf_withTrace, hrc,
          stateOf_stealth_user_agent, stateOf_real_user_agent]

theorem close_trace (env : Env) (b : ManualBrowser) (clock : Nat) (fs : FS) :
    (ManualBrowser.close env b clock fs).trace =
      (if b.context then [Event.contextClose] else []) ++
      (if b.browser && !b.using_persistent then [Event.browserClose] else []) ++
      (if b.playwright then [Event.playwrightStop] else []) ++
      [Event.saveMetadata] := by
  cases hc : b.context <;> cases hb : b.browser <;>
    cases hu : b.using_persistent <;> cases hp : b.playwright <;>
      cases he : env.contextCloseRaises <;>
        simp [ManualBrowser.close, get_timestamp, hc, hb, hu, hp, he]

theorem countP_close_zero (p : Event → Bool) (env : Env) (b : ManualBrowser)
    (clock : Nat) (fs : FS) (h1 : p Event.contextClose = false)
    (h2 : p Event.browserClose = false) (h3 : p Event.playwrightStop = false)
    (h4 : p Event.saveMetadata = false) :
    (ManualBrowser.close env b clock fs).trace.countP p = 0 := by
  rw [close_trace]
  cases hc : b.context <;> cases hb : b.browser <;>
    cases hu : b.using_persistent <;> cases hp : b.playwright <;>
      simp [h1, h2, h3, h4]

theorem close_harSaved (env : Env) (b : ManualBrowser) (clock : Nat)
    (fs : FS) (hc : b.context = true)
    (he : env.contextCloseRaises = false) :
    (ManualBrowser.close env b clock fs).fs.harFileSaved = true := by
  cases hb : b.browser <;> cases hu : b.using_persistent <;>
    cases hp : b.playwright <;>
      simp [ManualBrowser.close, get_timestamp, hc, hb, hu, hp, he]

/-- C1: calling close() a second time after a completed close() returns the
same HAR path as the first call (both equal the session HAR path fixed at
construction), and the second call performs no teardown step again: its trace
is only the metadata write, so the context close, the browser close and the
driver stop each happen at most once across both calls. close() is a total
function of the model because every teardown step of browser.py 388-424
swallows its exceptions, so no exception is raised by the second call. -/
theorem C1_close_twice_idempotent (env : Env) (b : ManualBrowser)
    (clock : Nat) (fs : FS) :
    let r1 := ManualBrowser.close env b clock fs
    let r2 := ManualBrowser.close env r1.b r1.clock r1.fs
    r2.ret = r1.ret ∧ r1.ret = b.har_path ∧
    r2.trace = [Event.saveMetadata] ∧
    (r1.trace ++ r2.trace).countP (· == Event.contextClose) ≤ 1 ∧
    (r1.trace ++ r2.trace).countP (· == Event.browserClose) ≤ 1 ∧
    (r1.trace ++ r2.trace).countP (· == Event.playwrightStop) ≤ 1 := by
  cases hc : b.context <;> cases hb : b.browser <;>
    cases hu : b.using_persistent <;> cases hp : b.playwright <;>
      cases he : env.contextCloseRaises <;>
        (simp [ManualBrowser.close, ManualBrowser.save_metadata, get_timestamp,
               hc, hb, hu, hp, he]) <;> decide

/-- C6: close() emits events in the fixed order context close (when a
context exists), browser close (when a browser exists and the handle is not
persistent), driver stop (when the driver is connected), then the metadata
write; the trace is the same for every environment oracle, so an exception
raised by any teardown step never prevents a later step, and the metadata
record is always written. -/
theorem C6_close_order_best_effort (env : Env) (b : ManualBrowser)
    (clock : Nat) (fs : FS) :
    (ManualBrowser.close env b clock fs).trace =
      (if b.context then [Event.contextClose] else []) ++
      (if b.browser && !b.using_persistent then [Event.browserClose] else []) ++
      (if b.playwright then [Event.playwrightStop] else []) ++
      [Event.saveMetadata] ∧
    ((ManualBrowser.close env b clock fs).fs.metadataFile).isSome = true := by
  cases hc : b.context <;> cases hb : b.browser <;>
    cases hu : b.using_persistent <;> cases hp : b.playwright <;>
      cases he : env.contextCloseRaises <;>
        simp [ManualBrowser.close, ManualBrowser.save_metadata, get_timestamp,
              hc, hb, hu, hp, he]

/-- C9: calling close() on a session on which start() was never called does
not raise (close is total and all three handles are absent, so every
teardown step is skipped: the trace is only the metadata write); it still
writes a metadata record whose start time is null, still returns the fixed
HAR path, and no capture file exists at that path. -/
theorem C9_close_without_start (env : Env) (run_id prompt : String)
    (output_dir : Option String) (urc : Bool) (i : Fin USER_AGENTS.length)
    (clock : Nat) :
    let b := ManualBrowser.init run_id prompt output_dir urc i
    let r := ManualBrowser.close env b clock
      { metadataFile := none, harFileSaved := false }
    r.ret = b.har_path ∧
    r.trace = [Event.saveMetadata] ∧
    r.fs.harFileSaved = false ∧
    r.fs.metadataFile = some
      [("run_id", JVal.str run_id), ("prompt", JVal.str prompt),
       ("start_time", JVal.null),
       ("end_time", JVal.num clock),
       ("har_file", JVal.str (b.har_path))] := by
  simp [ManualBrowser.init, ManualBrowser.close, ManualBrowser.save_metadata,
        get_timestamp, get_har_dir]

/-- C7: in the fallback (stealth Chromium) path, the stealth init script is
registered on the browser context before the first page of that context is
created: when the launch succeeds, the addInitScript event (and the
playwright-stealth application) occur strictly before the first newPage
event of the trace, and a first page is indeed created. -/
theorem C7_stealth_before_first_page (env : Env) (b : ManualBrowser)
    (clock : Nat) (fs : FS) (start_url : Option String)
    (h : env.launchRaises = false) :
    let tr := traceOf
      (ManualBrowser.start_with_stealth_chromium env b clock fs start_url)
    Event.addInitScript ∈ tr.takeWhile (fun e => !(isNewPage e)) ∧
    Event.applyStealth ∈ tr.takeWhile (fun e => !(isNewPage e)) ∧
    Event.newPage ∈ tr := by
  cases hu : start_url <;> cases hg : env.gotoRaises <;>
    simp [ManualBrowser.start_with_stealth_chromium, traceOf, h, hu, hg,
          isNewPage, List.takeWhile]

/-- C7 witness at a concrete session and environment. -/
theorem C7_stealth_before_first_page_witness :
    Env.launchRaises ⟨false, false, false, false, false, false, false, false⟩
      = false ∧
    (let env : Env := ⟨false, false, false, false, false, false, false, false⟩
     let b := ManualBrowser.init "run-1" "goal" none false ⟨0, by decide⟩
     let tr := traceOf
       (ManualBrowser.start_with_stealth_chromium env b 0
         { metadataFile := none, harFileSaved := false } none)
     Event.addInitScript ∈ tr.takeWhile (fun e => !(isNewPage e)) ∧
     Event.applyStealth ∈ tr.takeWhile (fun e => !(isNewPage e)) ∧
     Event.newPage ∈ tr) :=
  ⟨rfl,
   C7_stealth_before_first_page
     ⟨false, false, false, false, false, false, false, false⟩
     (ManualBrowser.init "run-1" "goal" none false ⟨0, by decide⟩)
     0 { metadataFile := none, harFileSaved := false } none rfl⟩

/-- C8: the user-agent identity is chosen at construction by a uniformly
random choice from the fixed pool (the choice function, given an explicit
random index, is a bijection onto the pool: injective and surjective, so
each pool member is selected by exactly one index), the chosen value is a
member of the pool, and neither close() nor start() (in either launch path
and whichever way it ends) changes the user_agent field of the session. -/
theorem C8_user_agent_choice_stable (run_id prompt : String)
    (output_dir : Option String) (urc : Bool) (i : Fin USER_AGENTS.length)
    (env : Env) (clock : Nat) (fs : FS) (start_url : Option String) :
    let b := ManualBrowser.init run_id prompt output_dir urc i
    b.user_agent = uaChoice i ∧
    b.user_agent ∈ USER_AGENTS ∧
    Function.Injective uaChoice ∧
    (∀ ua ∈ USER_AGENTS, ∃ j, uaChoice j = ua) ∧
    (ManualBrowser.close env b clock fs).b.user_agent = b.user_agent ∧
    (stateOf (ManualBrowser.start env b clock fs start_url)).user_agent =
      b.user_agent := by
  refine ⟨rfl, ?_, ?_, ?_, close_user_agent _ _ _ _,
    stateOf_start_user_agent _ _ _ _ _⟩
  · simp only [ManualBrowser.init, uaChoice]
    exact List.get_mem USER_AGENTS i.1 i.2
  · decide
  · decide

/-- C5: when the real profile directory does not exist and the session was
started in real-browser mode, no real-browser launch is attempted (no
persistent-context launch and no temporary profile copy appear in the trace),
the downgrade is surfaced as the informational fallback notice, and when the
fallback-path driver calls succeed the session completes without a
propagated exception, with the capture archive written and the metadata
record saved. -/
theorem C5_missing_profile_falls_back (env : Env) (b : ManualBrowser)
    (clock : Nat) (fs : FS) (start_url : Option String)
    (hpe : env.chromeProfileExists = false)
    (hrc : b.use_real_chrome = true) :
    let r := ManualBrowser.start env b clock fs start_url
    (traceOf r).countP isLaunchPersistent = 0 ∧
    (traceOf r).countP isMkTempProfile = 0 ∧
    Event.fallbackNotice ∈ traceOf r ∧
    (env.launchRaises = false → env.gotoRaises = false →
     env.contextCloseRaises = false →
      isOkB r = true ∧ (fsOf r).harFileSaved = true ∧
      ((fsOf r).metadataFile).isSome = true) := by
  cases hl : env.launchRaises <;> cases hu : start_url <;>
    cases hg : env.gotoRaises <;>
      simp only [ManualBrowser.start, ManualBrowser.start_with_real_chrome,
        ManualBrowser.start_with_stealth_chromium, get_chrome_profile_dir,
        get_timestamp, hpe, hrc, hl, hu, hg, if_true, if_false,
        Bool.false_eq_true, Bool.and_self, Bool.and_false, Bool.and_true,
        Option.isSome_some, Option.isSome_none, Option.map_some, Option.map_none,
        Option.toList_some, Option.toList_none, Bool.true_and, Bool.false_and,
        traceOf_withTrace, fsOf_withTrace, isOkB_withTrace, ite_true, ite_false,
        reduceIte] <;>
      simp_all [traceOf, fsOf, isOkB, isLaunchPersistent, isMkTempProfile,
        List.countP_append, List.countP_cons, countP_close_zero,
        close_harSaved, close_metadataFile, -List.countP_eq_zero]

/-- C5 witness at a concrete session and environment. -/
theorem C5_missing_profile_falls_back_witness :
    Env.chromeProfileExists
      ⟨false, false, false, false, false, false, false, false⟩ = false ∧
    (ManualBrowser.init "run-5" "goal" none true ⟨1, by decide⟩).use_real_chrome
      = true ∧
    (let env : Env := ⟨false, false, false, false, false, false, false, false⟩
     let b := ManualBrowser.init "run-5" "goal" none true ⟨1, by decide⟩
     let r := ManualBrowser.start env b 0
       { metadataFile := none, harFileSaved := false } none
     (traceOf r).countP isLaunchPersistent = 0 ∧
     (traceOf r).countP isMkTempProfile = 0 ∧
     Event.fallbackNotice ∈ traceOf r ∧
     (Env.launchRaises ⟨false, false, false, false, false, false, false, false⟩
        = false →
      Env.gotoRaises ⟨false, false, false, false, false, false, false, false⟩
        = false →
      Env.contextCloseRaises
        ⟨false, false, false, false, false, false, false, false⟩ = false →
       isOkB r = true ∧ (fsOf r).harFileSaved = true ∧
       ((fsOf r).metadataFile).isSome = true)) :=
  ⟨rfl, rfl,
   C5_missing_profile_falls_back
     ⟨false, false, false, false, false, false, false, false⟩
     (ManualBrowser.init "run-5" "goal" none true ⟨1, by decide⟩)
     0 { metadataFile := none, harFileSaved := false } none rfl rfl⟩

/-- C10: on the real-browser (persistent-context) path the fingerprint
evasions are not applied: however the session ends, the trace never contains
a stealth init-script registration (so the `_inject_stealth` helper, whose
only effect is that registration, is never invoked) nor a playwright-stealth
application; the persistent-context launch call receives no user_agent
keyword (so the randomly chosen user-agent is never passed to the context);
and the automation markers are suppressed only by command-line flags: the
args list carries the disable-blink-features flag and the bundled automation
arguments are suppressed through ignore_default_args. -/
theorem C10_real_chrome_no_evasion (env : Env) (b : ManualBrowser)
    (clock : Nat) (fs : FS) (start_url : Option String)
    (hpe : env.chromeProfileExists = true)
    (hrc : b.use_real_chrome = true) :
    let tr := traceOf (ManualBrowser.start env b clock fs start_url)
    tr.countP isAddInit = 0 ∧
    tr.countP isApplyStealth = 0 ∧
    Event.launchPersistent (launchPersistentKwargs b.har_path) ∈ tr ∧
    ((launchPersistentKwargs b.har_path).map Prod.fst).contains "user_agent"
      = false ∧
    ("args", PVal.strList ["--start-maximized",
       "--disable-blink-features=AutomationControlled"]) ∈
      launchPersistentKwargs b.har_path ∧
    ("ignore_default_args", PVal.strList ignored_default_args) ∈
      launchPersistentKwargs b.har_path ∧
    inject_stealth = [Event.addInitScript] := by
  cases hlp : env.launchPersistentRaises <;> cases hu : start_url <;>
    cases hg : env.gotoRaises <;> cases hip : env.persistentHasInitialPage <;>
      simp only [ManualBrowser.start, ManualBrowser.start_with_real_chrome,
        get_chrome_profile_dir, get_timestamp, hpe, hrc, hlp, hu, hg, hip,
        if_true, if_false, Bool.false_eq_true, Bool.and_self, Bool.and_false,
        Bool.and_true, Option.map_some, Option.map_none, Option.toList_some,
        Option.toList_none, Bool.true_and, Bool.false_and, traceOf_withTrace,
        ite_true, ite_false, reduceIte] <;>
      simp_all [traceOf, isAddInit, isApplyStealth, launchPersistentKwargs,
        inject_stealth, List.countP_append, List.countP_cons,
        countP_close_zero, -List.countP_eq_zero]

/-- C10 witness at a concrete session and environment. -/
theorem C10_real_chrome_no_evasion_witness :
    Env.chromeProfileExists
      ⟨true, false, false, true, false, false, false, false⟩ = true ∧
    (ManualBrowser.init "run-10" "goal" none true
      ⟨2, by decide⟩).use_real_chrome = true ∧
    (let env : Env := ⟨true, false, false, true, false, false, false, false⟩
     let b := ManualBrowser.init "run-10" "goal" none true ⟨2, by decide⟩
     let tr := traceOf (ManualBrowser.start env b 0
       { metadataFile := none, harFileSaved := false } none)
     tr.countP isAddInit = 0 ∧
     tr.countP isApplyStealth = 0 ∧
     Event.launchPersistent (launchPersistentKwargs b.har_path) ∈ tr ∧
     ((launchPersistentKwargs b.har_path).map Prod.fst).contains "user_agent"
       = false ∧
     ("args", PVal.strList ["--start-maximized",
        "--disable-blink-features=AutomationControlled"]) ∈
       launchPersistentKwargs b.har_path ∧
     ("ignore_default_args", PVal.strList ignored_default_args) ∈
       launchPersistentKwargs b.har_path ∧
     inject_stealth = [Event.addInitScript]) :=
  ⟨rfl, rfl,
   C10_real_chrome_no_evasion
     ⟨true, false, false, true, false, false, false, false⟩
     (ManualBrowser.init "run-10" "goal" none true ⟨2, by decide⟩)
     0 { metadataFile := none, harFileSaved := false } none rfl rfl⟩

theorem stealth_ok_fs_ret (env : Env) (b : ManualBrowser) (clock : Nat)
    (fs : FS) (url : Option String) (out : RunOut) (p : String)
    (h : ManualBrowser.start_with_stealth_chromium env b clock fs url =
      Except.ok (out, p)) :
    out.fs.metadataFile = some (b.save_metadata clock) ∧ p = b.har_path := by
  cases hl : env.launchRaises <;> cases hu : url <;>
    cases hg : env.gotoRaises <;>
      simp only [ManualBrowser.start_with_stealth_chromium, hl, hu, hg,
        if_true, if_false, Bool.false_eq_true, Bool.and_self, Bool.and_false,
        Bool.and_true, Bool.true_and, Bool.false_and, Option.isSome_some,
        Option.isSome_none, Option.map_some, Option.map_none,
        Option.toList_some, Option.toList_none, ite_true, ite_false,
        reduceIte, reduceCtorEq, Except.ok.injEq, Prod.mk.injEq] at h <;>
      (obtain ⟨ho, hp⟩ := h
       subst hp
       subst ho
       exact ⟨by simp [close_metadataFile, ManualBrowser.save_metadata],
              by simp [close_ret]⟩)

theorem real_ok_fs_ret (env : Env) (b : ManualBrowser) (clock : Nat)
    (fs : FS) (url : Option String) (out : RunOut) (p : String)
    (h : ManualBrowser.start_with_real_chrome env b clock fs url =
      Except.ok (out, p)) :
    out.fs.metadataFile = some (b.save_metadata clock) ∧ p = b.har_path := by
  cases hpe : env.chromeProfileExists
  case false =>
    rw [ManualBrowser.start_with_real_chrome] at h
    simp only [get_chrome_profile_dir, hpe, if_false, Bool.false_eq_true,
      reduceIte] at h
    cases hs : ManualBrowser.start_with_stealth_chromium env b clock fs url
      with
    | error r => rw [hs] at h; exact absurd h (by simp [withTrace])
    | ok rp =>
      rw [hs] at h
      obtain ⟨r0, p0⟩ := rp
      simp only [withTrace, Except.ok.injEq, Prod.mk.injEq] at h
      obtain ⟨ho, hp⟩ := h
      obtain ⟨hm, hr⟩ := stealth_ok_fs_ret env b clock fs url r0 p0 hs
      subst hp
      subst ho
      exact ⟨hm, hr⟩
  case true =>
    cases hlp : env.launchPersistentRaises <;> cases hu : url <;>
      cases hg : env.gotoRaises <;>
        cases hip : env.persistentHasInitialPage <;>
          simp only [ManualBrowser.start_with_real_chrome,
            get_chrome_profile_dir, hpe, hlp, hu, hg, hip, if_true, if_false,
            Bool.false_eq_true, Bool.and_self, Bool.and_false, Bool.and_true,
            Bool.true_and, Bool.false_and, Option.isSome_some,
            Option.isSome_none, Option.map_some, Option.map_none,
            Option.toList_some, Option.toList_none, ite_true, ite_false,
            reduceIte, reduceCtorEq, Except.ok.injEq, Prod.mk.injEq] at h <;>
          (obtain ⟨ho, hp⟩ := h
           subst hp
           subst ho
           exact ⟨by simp [close_metadataFile, ManualBrowser.save_metadata],
                  by simp [close_ret]⟩)

theorem withTrace_eq_ok (pre : List Event)
    (r : Except RunOut (RunOut × String)) (out : RunOut) (p : String)
    (h : withTrace pre r = Except.ok (out, p)) :
    ∃ r0, r = Except.ok (r0, p) ∧ out.fs = r0.fs ∧ out.b = r0.b := by
  cases r with
  | error r => simp [withTrace] at h
  | ok rp =>
    obtain ⟨r0, p0⟩ := rp
    simp only [withTrace, Except.ok.injEq, Prod.mk.injEq] at h
    obtain ⟨ho, hp⟩ := h
    subst hp
    subst ho
    exact ⟨r0, rfl, rfl, rfl⟩

theorem start_ok_fs_ret (env : Env) (b : ManualBrowser) (clock : Nat)
    (fs : FS) (url : Option String) (out : RunOut) (p : String)
    (h : ManualBrowser.start env b clock fs url = Except.ok (out, p)) :
    out.fs.metadataFile = some
      [("run_id", JVal.str b.run_id), ("prompt", JVal.str b.prompt),
       ("start_time", JVal.num clock), ("end_time", JVal.num (clock + 1)),
       ("har_file", JVal.str b.har_path)] ∧ p = b.har_path := by
  rw [ManualBrowser.start] at h
  simp only [get_timestamp] at h
  obtain ⟨r0, hr0, hfs, -⟩ := withTrace_eq_ok _ _ _ _ h
  cases hrc : b.use_real_chrome <;>
    simp only [hrc, if_true, if_false, Bool.false_eq_true, reduceIte] at hr0
  case false =>
    obtain ⟨hm, hp⟩ := stealth_ok_fs_ret _ _ _ _ _ _ _ hr0
    subst hp
    rw [hfs, hm]
    simp [ManualBrowser.save_metadata]
  case true =>
    obtain ⟨hm, hp⟩ := real_ok_fs_ret _ _ _ _ _ _ _ hr0
    subst hp
    rw [hfs, hm]
    simp [ManualBrowser.save_metadata]

/-- C2: whenever a full session run completes (start() returns normally, the
session having gone through teardown to CLOSED), the filesystem holds a
metadata record with exactly the keys run_id, prompt, start_time, end_time
and har_file; its recorded end time is not earlier than its recorded start
time; and its recorded capture-artifact path equals the path returned to
the caller. -/
theorem C2_metadata_record_on_closed (env : Env) (run_id prompt : String)
    (output_dir : Option String) (urc : Bool) (i : Fin USER_AGENTS.length)
    (start_url : Option String) (clock : Nat) (out : RunOut) (p : String)
    (h : run env run_id prompt output_dir urc i start_url clock =
      Except.ok (out, p)) :
    ∃ md, out.fs.metadataFile = some md ∧
      md.map Prod.fst =
        ["run_id", "prompt", "start_time", "end_time", "har_file"] ∧
      (∃ s e, ("start_time", JVal.num s) ∈ md ∧ ("end_time", JVal.num e) ∈ md
        ∧ s ≤ e) ∧
      ("har_file", JVal.str p) ∈ md := by
  rw [run] at h
  obtain ⟨hm, hp⟩ := start_ok_fs_ret _ _ _ _ _ _ _ h
  subst hp
  refine ⟨_, hm, by simp, ⟨clock, clock + 1, by simp, by simp, Nat.le_succ _⟩,
    ?_⟩
  simp

set_option maxHeartbeats 2000000 in
/-- C2 witness at a concrete session and environment. -/
theorem C2_metadata_record_on_closed_witness :
    ∃ out p,
      run ⟨false, false, false, false, false, false, false, false⟩
        "run-2" "goal" none false ⟨0, by decide⟩ none 0 =
          Except.ok (out, p) ∧
      (∃ md, out.fs.metadataFile = some md ∧
        md.map Prod.fst =
          ["run_id", "prompt", "start_time", "end_time", "har_file"] ∧
        (∃ s e, ("start_time", JVal.num s) ∈ md ∧
          ("end_time", JVal.num e) ∈ md ∧ s ≤ e) ∧
        ("har_file", JVal.str p) ∈ md) :=
  ⟨_, _, rfl,
    C2_metadata_record_on_closed
      ⟨false, false, false, false, false, false, false, false⟩
      "run-2" "goal" none false ⟨0, by decide⟩ none 0 _ _ rfl⟩

/-- C3 counterexample: at a concrete session whose stealth-path launch call
raises, the exception is propagated (the run does not complete normally),
but contrary to the claim no best-effort teardown runs before propagation
and no metadata record is written: the trace contains no teardown step and
no metadata write, and the metadata file is absent. -/
theorem C3_counterexample :
    isOkB (run ⟨false, false, true, false, false, false, false, false⟩
      "run-3" "goal" none false ⟨0, by decide⟩ none 0) = false ∧
    (fsOf (run ⟨false, false, true, false, false, false, false, false⟩
      "run-3" "goal" none false ⟨0, by decide⟩ none 0)).metadataFile = none ∧
    (traceOf (run ⟨false, false, true, false, false, false, false, false⟩
      "run-3" "goal" none false ⟨0, by decide⟩ none 0)).countP isTeardown
      = 0 ∧
    (traceOf (run ⟨false, false, true, false, false, false, false, false⟩
      "run-3" "goal" none false ⟨0, by decide⟩ none 0)).countP isSaveMetadata
      = 0 :=
  ⟨rfl, rfl, rfl, rfl⟩

/-- C3 amended: a driver exception during launch is fatal to the session and
is propagated to the caller immediately, with no teardown run first: start()
returns the exception, the filesystem is untouched (in particular no
metadata record is written), and the trace contains no teardown step and no
metadata write. In the real-browser path only the temporary profile copy is
removed by the finally-block before propagation. -/
theorem C3_launch_failure_propagates_without_teardown (env : Env)
    (b : ManualBrowser) (clock : Nat) (fs : FS) (url : Option String)
    (h1 : env.launchRaises = true) (h2 : env.launchPersistentRaises = true) :
    ∃ out, ManualBrowser.start env b clock fs url = Except.error out ∧
      out.fs = fs ∧
      out.trace.countP isTeardown = 0 ∧
      out.trace.countP isSaveMetadata = 0 := by
  cases hrc : b.use_real_chrome <;> cases hpe : env.chromeProfileExists <;>
    simp only [ManualBrowser.start, ManualBrowser.start_with_real_chrome,
      ManualBrowser.start_with_stealth_chromium, get_chrome_profile_dir,
      get_timestamp, withTrace, hrc, hpe, h1, h2, if_true, if_false,
      Bool.false_eq_true, ite_true, ite_false, reduceIte,
      Except.error.injEq] <;>
    exact ⟨_, rfl, rfl, by simp [isTeardown, isSaveMetadata],
      by simp [isTeardown, isSaveMetadata]⟩

/-- C3 amended witness at a concrete session and environment. -/
theorem C3_launch_failure_witness :
    Env.launchRaises ⟨true, true, true, false, false, false, false, false⟩
      = true ∧
    Env.launchPersistentRaises
      ⟨true, true, true, false, false, false, false, false⟩ = true ∧
    ∃ out,
      ManualBrowser.start ⟨true, true, true, false, false, false, false, false⟩
        (ManualBrowser.init "run-3w" "goal" none true ⟨0, by decide⟩) 0
        { metadataFile := none, harFileSaved := false } none =
        Except.error out ∧
      out.fs = { metadataFile := none, harFileSaved := false } ∧
      out.trace.countP isTeardown = 0 ∧
      out.trace.countP isSaveMetadata = 0 :=
  ⟨rfl, rfl,
   C3_launch_failure_propagates_without_teardown
     ⟨true, true, true, false, false, false, false, false⟩
     (ManualBrowser.init "run-3w" "goal" none true ⟨0, by decide⟩) 0
     { metadataFile := none, harFileSaved := false } none rfl rfl⟩

/-- C4 counterexample: at a concrete session with a starting URL whose
navigation call raises (launch succeeding), the exception escapes to the
caller and the session does not proceed through the interactive wait,
contrary to the claim that navigation failure is non-fatal. -/
theorem C4_counterexample :
    isOkB (run ⟨false, false, false, false, true, false, false, false⟩
      "run-4" "goal" none false ⟨0, by decide⟩ (some "https://example.com") 0)
      = false ∧
    (traceOf (run ⟨false, false, false, false, true, false, false, false⟩
      "run-4" "goal" none false ⟨0, by decide⟩ (some "https://example.com")
      0)).countP isWaitForClose = 0 ∧
    (fsOf (run ⟨false, false, false, false, true, false, false, false⟩
      "run-4" "goal" none false ⟨0, by decide⟩ (some "https://example.com")
      0)).metadataFile = none :=
  ⟨rfl, rfl, rfl⟩

/-- C4 amended: when navigation to the provided starting URL raises and the
launch itself succeeded, the navigation failure is fatal in both launch
paths: the exception propagates to the caller, the interactive wait is never
reached, no teardown runs and no metadata record is written (the filesystem
is untouched). -/
theorem C4_navigation_failure_propagates (env : Env) (b : ManualBrowser)
    (clock : Nat) (fs : FS) (u : String) (hg : env.gotoRaises = true)
    (hl : env.launchRaises = false)
    (hlp : env.launchPersistentRaises = false) :
    ∃ out, ManualBrowser.start env b clock fs (some u) = Except.error out ∧
      out.fs = fs ∧
      out.trace.countP isWaitForClose = 0 ∧
      out.trace.countP isSaveMetadata = 0 := by
  cases hrc : b.use_real_chrome <;> cases hpe : env.chromeProfileExists <;>
    cases hip : env.persistentHasInitialPage <;>
      simp only [ManualBrowser.start, ManualBrowser.start_with_real_chrome,
        ManualBrowser.start_with_stealth_chromium, get_chrome_profile_dir,
        get_timestamp, withTrace, hrc, hpe, hip, hg, hl, hlp, if_true,
        if_false, Bool.false_eq_true, ite_true, ite_false, reduceIte,
        Option.isSome_some, Option.map_some, Option.toList_some,
        Bool.and_self, Bool.and_true, Bool.true_and,
        Except.error.injEq] <;>
      exact ⟨_, rfl, rfl, by simp [isWaitForClose, isSaveMetadata],
        by simp [isWaitForClose, isSaveMetadata]⟩

/-- C4 amended witness at a concrete session and environment. -/
theorem C4_navigation_failure_witness :
    Env.gotoRaises ⟨true, false, false, true, true, false, false, false⟩
      = true ∧
    Env.launchRaises ⟨true, false, false, true, true, false, false, false⟩
      = false ∧
    Env.launchPersistentRaises
      ⟨true, false, false, true, true, false, false, false⟩ = false ∧
    ∃ out,
      ManualBrowser.start ⟨true, false, false, true, true, false, false, false⟩
        (ManualBrowser.init "run-4w" "goal" none true ⟨0, by decide⟩) 0
        { metadataFile := none, harFileSaved := false }
        (some "https://example.com") = Except.error out ∧
      out.fs = { metadataFile := none, harFileSaved := false } ∧
      out.trace.countP isWaitForClose = 0 ∧
      out.trace.countP isSaveMetadata = 0 :=
  ⟨rfl, rfl, rfl,
   C4_navigation_failure_propagates
     ⟨true, false, false, true, true, false, false, false⟩
     (ManualBrowser.init "run-4w" "goal" none true ⟨0, by decide⟩) 0
     { metadataFile := none, harFileSaved := false } "https://example.com"
     rfl rfl rfl⟩

end ReverseApi
